import Mathlib

/-!
Shallow embedding of the bookapi CRUD service (src/main.go and the
OpenTelemetry variant in src/unnamed/part_001, whose request/response
logic is identical).

The service keeps a single `books` table (schema db/schema.sql: `id`
SERIAL PRIMARY KEY, `title`, `author`, `summary`).  A database state is
the list of rows plus the serial sequence's next value.  Each handler is
a pure function from the request and the database state to an HTTP
response and the successor state.  Database-level failures
(`db.QueryContext` / `db.ExecContext` returning a non-nil error) are
modelled by an `inject` flag; a non-integer `id` query parameter also
surfaces as a database error because Postgres fails to cast the bound
text parameter, so it lands in the same 500 branch as in the Go code.

Go-specific behaviour kept faithfully:
  * `json.NewDecoder(body).Decode(&book)` succeeds on a JSON object with
    type-correct recognized fields (key match is case-insensitive,
    unknown keys ignored, later duplicates win, `null` field values are
    no-ops) and on a top-level `null`; every other JSON value, and any
    malformed body, is a decode error (400).
  * `json.NewEncoder(w).Encode(books)` on the nil slice that
    `handleGetBooks` builds when zero rows are scanned emits the literal
    `null`, not `[]`; `Encode` always appends a newline.
  * `http.Error(w, msg, code)` writes `msg` plus a newline.
  * After the insert, `result.LastInsertId()` on the lib/pq driver
    returns `(0, error)`; the code discards the error, so the `id` in
    the 201 response body is always `0` whatever id the database
    assigned.
-/

/-- A row of the `books` table / the Go `Book` struct. -/
structure Book where
  id : Int
  title : String
  author : String
  summary : String
deriving DecidableEq, Repr

/-- Database state: the rows of `books` in storage order plus the next
value of the `id` serial sequence. -/
structure DBState where
  rows : List Book
  nextId : Int
deriving DecidableEq, Repr

/-- An HTTP response: status code and the bytes written to the body. -/
structure HttpResponse where
  status : Nat
  body : String
deriving DecidableEq, Repr

/-- Go `http.Error(w, msg, code)`: status `code`, body `msg` plus newline. -/
def httpError (code : Nat) (msg : String) : HttpResponse :=
  ⟨code, msg ++ "\n"⟩

/-- HTTP method of an inbound request. -/
inductive Method where
  | get
  | post
  | put
  | delete
  | other (name : String)
deriving DecidableEq, Repr

/-- A JSON value, as produced by a successful parse of the request body. -/
inductive JValue where
  | jnull
  | jbool (b : Bool)
  | jnum (n : Int)
  | jstr (s : String)
  | jarr (elems : List JValue)
  | jobj (fields : List (String × JValue))

/-- An inbound request to the service.  `queryId` is
`r.URL.Query().Get("id")`, which is `""` both when the parameter is
absent and when it is empty.  `body` is the result of reading one JSON
value from the request body: `none` when the body is malformed (or
empty), `some j` when it parses as the JSON value `j`. -/
structure Request where
  method : Method
  queryId : String
  body : Option JValue

/-- The zero value of the Go `Book` struct, the starting point of
`json.Decode`. -/
def zeroBook : Book := ⟨0, "", "", ""⟩

/-- ASCII lower-casing of one character, as Go's case-insensitive JSON
key match performs (json tags here are ASCII). -/
def lowerChar (c : Char) : Char :=
  if 65 ≤ c.toNat ∧ c.toNat ≤ 90 then Char.ofNat (c.toNat + 32) else c

/-- ASCII lower-casing of a JSON object key. -/
def keyLower (s : String) : String :=
  String.mk (s.data.map lowerChar)

/-- One step of Go `json.Unmarshal` into the `Book` struct: assign one
object member.  Keys are matched case-insensitively against the json
tags `id`, `title`, `author`, `summary`; unknown keys are ignored; a
`null` value is a no-op; a type-mismatched value is an error. -/
def setField (b : Book) (k : String) (v : JValue) : Option Book :=
  if keyLower k == "id" then
    match v with
    | JValue.jnum n => some { b with id := n }
    | JValue.jnull => some b
    | _ => none
  else if keyLower k == "title" then
    match v with
    | JValue.jstr s => some { b with title := s }
    | JValue.jnull => some b
    | _ => none
  else if keyLower k == "author" then
    match v with
    | JValue.jstr s => some { b with author := s }
    | JValue.jnull => some b
    | _ => none
  else if keyLower k == "summary" then
    match v with
    | JValue.jstr s => some { b with summary := s }
    | JValue.jnull => some b
    | _ => none
  else some b

/-- Fold `setField` over the members of a JSON object, left to right
(later duplicate keys overwrite earlier ones, as in Go). -/
def decodeFields (b : Book) (fs : List (String × JValue)) : Option Book :=
  match fs with
  | [] => some b
  | p :: t =>
    match setField b p.1 p.2 with
    | none => none
    | some b1 => decodeFields b1 t

/-- Go `json.NewDecoder(r.Body).Decode(&book)`: a top-level `null`
leaves the zero value, an object is folded member by member, and any
other JSON value fails to unmarshal into a struct. -/
def decodeBook : JValue → Option Book
  | JValue.jnull => some zeroBook
  | JValue.jobj fs => decodeFields zeroBook fs
  | _ => none

/-- Lower-case hex digit, for control-character escapes. -/
def hexDigitChar (n : Nat) : Char :=
  if n < 10 then Char.ofNat (48 + n) else Char.ofNat (87 + n)

/-- Go `encoding/json` escaping of one character inside a JSON string
(default encoder: HTML-escapes angle brackets and ampersand, escapes
quote, backslash, newline, carriage return, tab, other control
characters, and the line and paragraph separators). -/
def escChar (c : Char) : String :=
  if c = '\"' then "\\\""
  else if c = '\\' then "\\\\"
  else if c = '\n' then "\\n"
  else if c = '\r' then "\\r"
  else if c = '\t' then "\\t"
  else if c = '<' then "\\u003c"
  else if c = '>' then "\\u003e"
  else if c = '&' then "\\u0026"
  else if c.toNat < 32 then
    "\\u00" ++ String.mk [hexDigitChar (c.toNat / 16), hexDigitChar (c.toNat % 16)]
  else if c.toNat = 8232 then "\\u2028"
  else if c.toNat = 8233 then "\\u2029"
  else String.mk [c]

/-- A JSON string literal for `s`, escaped as Go's encoder does. -/
def jsonQuote (s : String) : String :=
  "\"" ++ String.join (s.data.map escChar) ++ "\""

/-- Go's JSON encoding of one `Book` (struct fields in declaration
order: id, title, author, summary). -/
def encodeBookGo (b : Book) : String :=
  "\x7b\"id\":" ++ toString b.id ++ ",\"title\":" ++ jsonQuote b.title ++
    ",\"author\":" ++ jsonQuote b.author ++ ",\"summary\":" ++ jsonQuote b.summary ++ "\x7d"

/-- Go's JSON encoding of the `books` slice built by `handleGetBooks`:
the slice is nil exactly when no row was appended, and a nil slice
encodes as the literal `null`, not `[]`. -/
def encodeBooksGo : List Book → String
  | [] => "null"
  | b :: t => "[" ++ encodeBookGo b ++ String.join (t.map (fun x => "," ++ encodeBookGo x)) ++ "]"

/-- Numeric value of a digit character, `none` on a non-digit. -/
def digitVal (c : Char) : Option Nat :=
  if c.isDigit then some (c.toNat - 48) else none

/-- Parse a nonempty run of decimal digits. -/
def digitsToNat (l : List Char) : Option Nat :=
  if l.isEmpty then none
  else l.foldlM (fun acc c => (digitVal c).map (fun d => acc * 10 + d)) 0

/-- Postgres's cast of the text parameter bound to `id = $1` to the
`integer` column type: optional sign, decimal digits, int4 range; any
other text makes the statement fail, which the Go code sees as a
database error. -/
def parsePgInt (s : String) : Option Int :=
  let signed : Option Int :=
    match s.data with
    | '-' :: rest => (digitsToNat rest).map (fun n => -(n : Int))
    | '+' :: rest => (digitsToNat rest).map (fun n => (n : Int))
    | l => (digitsToNat l).map (fun n => (n : Int))
  signed.bind (fun i => if -2147483648 ≤ i ∧ i ≤ 2147483647 then some i else none)

/-- Number of rows the statement `... WHERE id = $1` touches. -/
def countRows (id : Int) (st : DBState) : Nat :=
  (st.rows.filter (fun r => r.id == id)).length

/-- Statement `UPDATE books SET title = $1, author = $2, summary = $3 WHERE id = $4`
applied to one row: whole-record replacement of the three mutable
fields when the id matches, identity otherwise. -/
def updRow (b : Book) (id : Int) (r : Book) : Book :=
  if r.id == id then { r with title := b.title, author := b.author, summary := b.summary } else r

/-- Database effect of the UPDATE statement: affected-row count and the
updated table. -/
def updateExec (b : Book) (id : Int) (st : DBState) : Nat × DBState :=
  (countRows id st, { st with rows := st.rows.map (updRow b id) })

/-- Database effect of `DELETE FROM books WHERE id = $1`. -/
def deleteExec (id : Int) (st : DBState) : Nat × DBState :=
  (countRows id st, { st with rows := st.rows.filter (fun r => !(r.id == id)) })

/-- Database effect of
`INSERT INTO books (title, author, summary) VALUES ($1, $2, $3)`:
the serial sequence assigns `nextId` and advances.  Only the three
bound parameters reach the database. -/
def insertExec (title author summary : String) (st : DBState) : DBState :=
  { rows := st.rows ++ [⟨st.nextId, title, author, summary⟩], nextId := st.nextId + 1 }

/-- Handler `handleGetBooks` (src/main.go:135-182): get-by-id when the `id`
parameter is nonempty, get-all otherwise; 500 on query failure; 200
with the Go JSON encoding of the scanned slice (plus `Encode`'s
newline) otherwise. -/
def handleGetBooks (inject : Bool) (req : Request) (st : DBState) : HttpResponse × DBState :=
  if req.queryId ≠ "" then
    if inject then (httpError 500 "Failed to query books", st)
    else
      match parsePgInt req.queryId with
      | none => (httpError 500 "Failed to query books", st)
      | some id =>
        (⟨200, encodeBooksGo (st.rows.filter (fun r => r.id == id)) ++ "\n"⟩, st)
  else
    if inject then (httpError 500 "Failed to query books", st)
    else (⟨200, encodeBooksGo st.rows ++ "\n"⟩, st)

/-- Handler `handleCreateBook` (src/main.go:184-211): 400 on a body that fails
to decode, 500 on insert failure, otherwise insert and reply 201 with
the decoded book whose `ID` has been overwritten by
`result.LastInsertId()` — which lib/pq does not support, so the
discarded-error call yields 0 and the response id is always 0. -/
def handleCreateBook (inject : Bool) (req : Request) (st : DBState) : HttpResponse × DBState :=
  match req.body with
  | none => (httpError 400 "Invalid request body", st)
  | some j =>
    match decodeBook j with
    | none => (httpError 400 "Invalid request body", st)
    | some b =>
      if inject then (httpError 500 "Failed to create book", st)
      else
        (⟨201, encodeBookGo { b with id := 0 } ++ "\n"⟩,
          insertExec b.title b.author b.summary st)

/-- Handler `handleUpdateBook` (src/main.go:213-250): 400 on missing id or
undecodable body, 500 on exec failure (including Postgres rejecting the
id text), 404 when zero rows are affected, else 200 with no body. -/
def handleUpdateBook (inject : Bool) (req : Request) (st : DBState) : HttpResponse × DBState :=
  if req.queryId = "" then (httpError 400 "Missing book ID", st)
  else
    match req.body with
    | none => (httpError 400 "Invalid request body", st)
    | some j =>
      match decodeBook j with
      | none => (httpError 400 "Invalid request body", st)
      | some b =>
        if inject then (httpError 500 "Failed to update book", st)
        else
          match parsePgInt req.queryId with
          | none => (httpError 500 "Failed to update book", st)
          | some id =>
            if (updateExec b id st).fst = 0 then
              (httpError 404 "Book not found", (updateExec b id st).snd)
            else (⟨200, ""⟩, (updateExec b id st).snd)

/-- Handler `handleDeleteBook` (src/main.go:252-280): 400 on missing id, 500 on
exec failure, 404 when zero rows are affected, else 204 with no
content.  The body is never read. -/
def handleDeleteBook (inject : Bool) (req : Request) (st : DBState) : HttpResponse × DBState :=
  if req.queryId = "" then (httpError 400 "Missing book ID", st)
  else
    if inject then (httpError 500 "Failed to delete book", st)
    else
      match parsePgInt req.queryId with
      | none => (httpError 500 "Failed to delete book", st)
      | some id =>
        if (deleteExec id st).fst = 0 then
          (httpError 404 "Book not found", (deleteExec id st).snd)
        else (⟨204, ""⟩, (deleteExec id st).snd)

/-- Router `booksHandler` (src/main.go:110-133): dispatch on the HTTP method,
405 for anything but GET/POST/PUT/DELETE. -/
def booksHandler (inject : Bool) (req : Request) (st : DBState) : HttpResponse × DBState :=
  match req.method with
  | Method.get => handleGetBooks inject req st
  | Method.post => handleCreateBook inject req st
  | Method.put => handleUpdateBook inject req st
  | Method.delete => handleDeleteBook inject req st
  | Method.other _ => (httpError 405 "Method not allowed", st)

/-- Handler `healthCheckHandler` (src/main.go:282-286): unconditionally 200 with
body `OK`; it never touches the database. -/
def healthCheckHandler (st : DBState) : HttpResponse × DBState :=
  (⟨200, "OK"⟩, st)

/-! ## List-level helper lemmas -/

/-- When the affected-row count of `WHERE id = $1` is zero, no row of
the table carries that id. -/
lemma no_match_of_count_zero (id : Int) :
    ∀ l : List Book, (l.filter (fun r => r.id == id)).length = 0 →
      ∀ r ∈ l, (r.id == id) = false := by
  intro l
  induction l with
  | nil =>
    intro _ r hr
    simp at hr
  | cons a t ih =>
    intro h r hr
    cases ha : a.id == id with
    | true => simp [List.filter_cons, ha] at h
    | false =>
      simp only [List.filter_cons, ha, Bool.false_eq_true, if_false] at h
      rcases List.mem_cons.mp hr with rfl | hr2
      · exact ha
      · exact ih h r hr2

/-- Mapping the UPDATE row function over a table with no matching row
is the identity. -/
lemma map_updRow_eq_self (b : Book) (id : Int) :
    ∀ l : List Book, (∀ r ∈ l, (r.id == id) = false) → l.map (updRow b id) = l := by
  intro l
  induction l with
  | nil => intro _; rfl
  | cons a t ih =>
    intro h
    have ha := h a (List.mem_cons_self a t)
    have ht := ih (fun r hr => h r (List.mem_cons_of_mem a hr))
    simp [updRow, ha, ht]

/-- Filtering out a non-occurring id leaves the table unchanged. -/
lemma filter_out_eq_self (id : Int) :
    ∀ l : List Book, (∀ r ∈ l, (r.id == id) = false) →
      l.filter (fun r => !(r.id == id)) = l := by
  intro l
  induction l with
  | nil => intro _; rfl
  | cons a t ih =>
    intro h
    have ha := h a (List.mem_cons_self a t)
    have ht := ih (fun r hr => h r (List.mem_cons_of_mem a hr))
    simp [List.filter_cons, ha, ht]

/-- The UPDATE row function never changes a row's id. -/
lemma updRow_id (b : Book) (id : Int) (r : Book) : (updRow b id r).id = r.id := by
  unfold updRow
  split <;> rfl

/-- The UPDATE statement preserves the affected-row count of any later
statement with the same id. -/
lemma count_after_update (b : Book) (id : Int) :
    ∀ l : List Book,
      ((l.map (updRow b id)).filter (fun r => r.id == id)).length
        = (l.filter (fun r => r.id == id)).length := by
  intro l
  induction l with
  | nil => rfl
  | cons a t ih =>
    simp only [List.map_cons, List.filter_cons, updRow_id, ih]
    cases ha : a.id == id <;> simp [ih]

/-- Replacing a row's mutable fields twice with the same payload equals
replacing them once. -/
lemma updRow_idem (b : Book) (id : Int) (r : Book) :
    updRow b id (updRow b id r) = updRow b id r := by
  unfold updRow
  cases ha : r.id == id <;> simp [ha]

/-- Applying the UPDATE statement twice with the same payload yields
the same table as applying it once. -/
lemma map_updRow_idem (b : Book) (id : Int) (l : List Book) :
    (l.map (updRow b id)).map (updRow b id) = l.map (updRow b id) := by
  induction l with
  | nil => rfl
  | cons a t ih => simp [List.map_cons, updRow_idem, ih]

/-! ## Claim theorems -/

/-- C1 counterexample: on an empty table, `GET /books` (no id) replies
with status 200 but its body is the JSON literal `null` followed by
`Encode`'s newline — not the empty JSON array the claim requires. -/
theorem c1_counterexample :
    (handleGetBooks false ⟨Method.get, "", none⟩ ⟨[], 1⟩).fst.status = 200 ∧
    (handleGetBooks false ⟨Method.get, "", none⟩ ⟨[], 1⟩).fst.body = "null\n" ∧
    (handleGetBooks false ⟨Method.get, "", none⟩ ⟨[], 1⟩).fst.body ≠ "[]\n" ∧
    (handleGetBooks false ⟨Method.get, "", none⟩ ⟨[], 1⟩).fst.body ≠ "[]" := by
  refine ⟨rfl, rfl, ?_, ?_⟩ <;> decide

/-- C1 (amended): for every GET request to /books whose query yields
zero rows — id absent with an empty table, or id present, well-formed
and matching no row — the handler responds with status 200 and the body
`null` plus a newline (Go's encoding of the nil slice), not an empty
JSON array. -/
theorem c1_get_zero_rows_null (st : DBState) (idStr : String) (id : Int) :
    (st.rows = [] →
      handleGetBooks false ⟨Method.get, "", none⟩ st = (⟨200, "null\n"⟩, st)) ∧
    (idStr ≠ "" → parsePgInt idStr = some id → countRows id st = 0 →
      handleGetBooks false ⟨Method.get, idStr, none⟩ st = (⟨200, "null\n"⟩, st)) := by
  constructor
  · intro h
    simp [handleGetBooks, h, encodeBooksGo]
  · intro hne hp hc
    have hfil : st.rows.filter (fun r => r.id == id) = [] :=
      List.length_eq_zero.mp hc
    simp [handleGetBooks, hne, hp, hfil, encodeBooksGo]

/-- C1 witness: the amended statement evaluated on an empty table and
on a one-row table queried with a non-matching id. -/
theorem c1_witness :
    handleGetBooks false ⟨Method.get, "", none⟩ ⟨[], 1⟩ = (⟨200, "null\n"⟩, ⟨[], 1⟩) ∧
    handleGetBooks false ⟨Method.get, "5", none⟩ ⟨[⟨1, "A", "B", "C"⟩], 2⟩
      = (⟨200, "null\n"⟩, ⟨[⟨1, "A", "B", "C"⟩], 2⟩) :=
  ⟨(c1_get_zero_rows_null ⟨[], 1⟩ "" 0).1 rfl,
   (c1_get_zero_rows_null ⟨[⟨1, "A", "B", "C"⟩], 2⟩ "5" 5).2 (by decide) (by decide) (by decide)⟩

/-- C2: at the concrete input `POST /books` with body
`{"title":"A","author":"B","summary":"C"}` against a fresh table whose
serial sequence stands at 1, the handler stores the row under the
database-assigned id 1 yet replies 201 with `"id":0` in the body,
because lib/pq's `LastInsertId` is unsupported and the error is
discarded; the follow-up GET with the returned id 0 yields zero rows.
This exhibits the divergence between the code and the claim that the
response id equals the assigned id. -/
theorem c2_create_returns_zero_id :
    (handleCreateBook false ⟨Method.post, "",
        some (JValue.jobj [("title", JValue.jstr "A"), ("author", JValue.jstr "B"),
          ("summary", JValue.jstr "C")])⟩ ⟨[], 1⟩).fst.status = 201 ∧
    (handleCreateBook false ⟨Method.post, "",
        some (JValue.jobj [("title", JValue.jstr "A"), ("author", JValue.jstr "B"),
          ("summary", JValue.jstr "C")])⟩ ⟨[], 1⟩).fst.body
      = "\x7b\"id\":0,\"title\":\"A\",\"author\":\"B\",\"summary\":\"C\"\x7d\n" ∧
    (handleCreateBook false ⟨Method.post, "",
        some (JValue.jobj [("title", JValue.jstr "A"), ("author", JValue.jstr "B"),
          ("summary", JValue.jstr "C")])⟩ ⟨[], 1⟩).snd
      = ⟨[⟨1, "A", "B", "C"⟩], 2⟩ ∧
    (handleGetBooks false ⟨Method.get, "0", none⟩ ⟨[⟨1, "A", "B", "C"⟩], 2⟩).fst.body
      = "null\n" := by
  refine ⟨rfl, by decide, by decide, by decide⟩

/-- C5: a POST whose body is malformed JSON (fails to parse) is
answered 400 with no insert issued: the table after the request equals
the table before it, for every database state, failure flag, and query
string. -/
theorem c5_create_malformed_400 (inject : Bool) (qid : String) (st : DBState) :
    handleCreateBook inject ⟨Method.post, qid, none⟩ st
      = (httpError 400 "Invalid request body", st) := rfl

/-- C8: the health-check handler answers 200 with the fixed body `OK`
on every database state, leaves the state untouched, and its response
does not depend on the database at all. -/
theorem c8_healthz_ok :
    (∀ st : DBState, healthCheckHandler st = (⟨200, "OK"⟩, st)) ∧
    (∀ st st' : DBState, (healthCheckHandler st).fst = (healthCheckHandler st').fst) :=
  ⟨fun _ => rfl, fun _ _ => rfl⟩

/-- C9: the /books router sends GET to the get handler, POST to the
create handler, PUT to the update handler, DELETE to the delete
handler, and answers any other method with 405 `Method not allowed`
while leaving the database untouched. -/
theorem c9_router_dispatch :
    (∀ (inject : Bool) (qid : String) (body : Option JValue) (st : DBState),
      booksHandler inject ⟨Method.get, qid, body⟩ st
          = handleGetBooks inject ⟨Method.get, qid, body⟩ st ∧
      booksHandler inject ⟨Method.post, qid, body⟩ st
          = handleCreateBook inject ⟨Method.post, qid, body⟩ st ∧
      booksHandler inject ⟨Method.put, qid, body⟩ st
          = handleUpdateBook inject ⟨Method.put, qid, body⟩ st ∧
      booksHandler inject ⟨Method.delete, qid, body⟩ st
          = handleDeleteBook inject ⟨Method.delete, qid, body⟩ st) ∧
    (∀ (inject : Bool) (name qid : String) (body : Option JValue) (st : DBState),
      booksHandler inject ⟨Method.other name, qid, body⟩ st
          = (httpError 405 "Method not allowed", st)) :=
  ⟨fun _ _ _ _ => ⟨rfl, rfl, rfl, rfl⟩, fun _ _ _ _ _ => rfl⟩

/-- C3: the update handler's full status map — missing id gives 400
with the database untouched; malformed body gives 400; a database
failure gives 500; zero affected rows gives 404; a nonzero affected-row
count gives 200 with an empty body. -/
theorem c3_update_paths :
    (∀ (inject : Bool) (body : Option JValue) (st : DBState),
      handleUpdateBook inject ⟨Method.put, "", body⟩ st
        = (httpError 400 "Missing book ID", st)) ∧
    (∀ (inject : Bool) (idStr : String) (st : DBState), idStr ≠ "" →
      handleUpdateBook inject ⟨Method.put, idStr, none⟩ st
        = (httpError 400 "Invalid request body", st)) ∧
    (∀ (idStr : String) (j : JValue) (b : Book) (st : DBState), idStr ≠ "" →
      decodeBook j = some b →
      handleUpdateBook true ⟨Method.put, idStr, some j⟩ st
        = (httpError 500 "Failed to update book", st)) ∧
    (∀ (idStr : String) (j : JValue) (b : Book) (id : Int) (st : DBState), idStr ≠ "" →
      decodeBook j = some b → parsePgInt idStr = some id → countRows id st = 0 →
      handleUpdateBook false ⟨Method.put, idStr, some j⟩ st
        = (httpError 404 "Book not found", st)) ∧
    (∀ (idStr : String) (j : JValue) (b : Book) (id : Int) (st : DBState), idStr ≠ "" →
      decodeBook j = some b → parsePgInt idStr = some id → countRows id st ≠ 0 →
      (handleUpdateBook false ⟨Method.put, idStr, some j⟩ st).fst = ⟨200, ""⟩) := by
  refine ⟨?_, ?_, ?_, ?_, ?_⟩
  · intro inject body st
    simp [handleUpdateBook]
  · intro inject idStr st hne
    simp [handleUpdateBook, hne]
  · intro idStr j b st hne hd
    simp [handleUpdateBook, hne, hd]
  · intro idStr j b id st hne hd hp hc
    have hrows : st.rows.map (updRow b id) = st.rows :=
      map_updRow_eq_self b id st.rows
        (no_match_of_count_zero id st.rows (by simpa [countRows] using hc))
    simp [handleUpdateBook, hne, hd, hp, updateExec, hc, hrows]
  · intro idStr j b id st hne hd hp hc
    simp [handleUpdateBook, hne, hd, hp, updateExec, hc]

/-- C3 witness: each branch of the update status map at a concrete
request and table. -/
theorem c3_witness :
    handleUpdateBook false ⟨Method.put, "", none⟩ ⟨[], 1⟩
      = (httpError 400 "Missing book ID", ⟨[], 1⟩) ∧
    handleUpdateBook false ⟨Method.put, "7", none⟩ ⟨[], 1⟩
      = (httpError 400 "Invalid request body", ⟨[], 1⟩) ∧
    handleUpdateBook true ⟨Method.put, "7", some JValue.jnull⟩ ⟨[], 1⟩
      = (httpError 500 "Failed to update book", ⟨[], 1⟩) ∧
    handleUpdateBook false ⟨Method.put, "7", some JValue.jnull⟩ ⟨[], 1⟩
      = (httpError 404 "Book not found", ⟨[], 1⟩) ∧
    (handleUpdateBook false ⟨Method.put, "7", some JValue.jnull⟩
        ⟨[⟨7, "a", "b", "c"⟩], 8⟩).fst = ⟨200, ""⟩ :=
  ⟨c3_update_paths.1 false none ⟨[], 1⟩,
   c3_update_paths.2.1 false "7" ⟨[], 1⟩ (by decide),
   c3_update_paths.2.2.1 "7" JValue.jnull zeroBook ⟨[], 1⟩ (by decide) rfl,
   c3_update_paths.2.2.2.1 "7" JValue.jnull zeroBook 7 ⟨[], 1⟩ (by decide) rfl (by decide)
     (by decide),
   c3_update_paths.2.2.2.2 "7" JValue.jnull zeroBook 7 ⟨[⟨7, "a", "b", "c"⟩], 8⟩ (by decide)
     rfl (by decide) (by decide)⟩

/-- C4: the delete handler's full status map — missing id gives 400
with the database untouched; a database failure gives 500; zero
affected rows gives 404; a nonzero affected-row count gives 204 with no
content. -/
theorem c4_delete_paths :
    (∀ (inject : Bool) (body : Option JValue) (st : DBState),
      handleDeleteBook inject ⟨Method.delete, "", body⟩ st
        = (httpError 400 "Missing book ID", st)) ∧
    (∀ (idStr : String) (body : Option JValue) (st : DBState), idStr ≠ "" →
      handleDeleteBook true ⟨Method.delete, idStr, body⟩ st
        = (httpError 500 "Failed to delete book", st)) ∧
    (∀ (idStr : String) (body : Option JValue) (id : Int) (st : DBState), idStr ≠ "" →
      parsePgInt idStr = some id → countRows id st = 0 →
      handleDeleteBook false ⟨Method.delete, idStr, body⟩ st
        = (httpError 404 "Book not found", st)) ∧
    (∀ (idStr : String) (body : Option JValue) (id : Int) (st : DBState), idStr ≠ "" →
      parsePgInt idStr = some id → countRows id st ≠ 0 →
      (handleDeleteBook false ⟨Method.delete, idStr, body⟩ st).fst = ⟨204, ""⟩) := by
  refine ⟨?_, ?_, ?_, ?_⟩
  · intro inject body st
    simp [handleDeleteBook]
  · intro idStr body st hne
    simp [handleDeleteBook, hne]
  · intro idStr body id st hne hp hc
    have hrows : st.rows.filter (fun r => !(r.id == id)) = st.rows :=
      filter_out_eq_self id st.rows
        (no_match_of_count_zero id st.rows (by simpa [countRows] using hc))
    simp [handleDeleteBook, hne, hp, deleteExec, hc, hrows]
  · intro idStr body id st hne hp hc
    simp [handleDeleteBook, hne, hp, deleteExec, hc]

/-- C4 witness: each branch of the delete status map at a concrete
request and table. -/
theorem c4_witness :
    handleDeleteBook false ⟨Method.delete, "", none⟩ ⟨[], 1⟩
      = (httpError 400 "Missing book ID", ⟨[], 1⟩) ∧
    handleDeleteBook true ⟨Method.delete, "7", none⟩ ⟨[], 1⟩
      = (httpError 500 "Failed to delete book", ⟨[], 1⟩) ∧
    handleDeleteBook false ⟨Method.delete, "7", none⟩ ⟨[], 1⟩
      = (httpError 404 "Book not found", ⟨[], 1⟩) ∧
    (handleDeleteBook false ⟨Method.delete, "7", none⟩ ⟨[⟨7, "a", "b", "c"⟩], 8⟩).fst
      = ⟨204, ""⟩ :=
  ⟨c4_delete_paths.1 false none ⟨[], 1⟩,
   c4_delete_paths.2.1 "7" none ⟨[], 1⟩ (by decide),
   c4_delete_paths.2.2.1 "7" none 7 ⟨[], 1⟩ (by decide) (by decide) (by decide),
   c4_delete_paths.2.2.2 "7" none 7 ⟨[⟨7, "a", "b", "c"⟩], 8⟩ (by decide) (by decide)
     (by decide)⟩

/-- C6: an update (with a body that decodes) or a delete naming a
well-formed id that matches no persisted row answers 404 and leaves the
set of persisted books exactly as it was. -/
theorem c6_not_found_frame :
    (∀ (idStr : String) (j : JValue) (b : Book) (id : Int) (st : DBState), idStr ≠ "" →
      decodeBook j = some b → parsePgInt idStr = some id → countRows id st = 0 →
      (handleUpdateBook false ⟨Method.put, idStr, some j⟩ st).fst.status = 404 ∧
      (handleUpdateBook false ⟨Method.put, idStr, some j⟩ st).snd = st) ∧
    (∀ (idStr : String) (body : Option JValue) (id : Int) (st : DBState), idStr ≠ "" →
      parsePgInt idStr = some id → countRows id st = 0 →
      (handleDeleteBook false ⟨Method.delete, idStr, body⟩ st).fst.status = 404 ∧
      (handleDeleteBook false ⟨Method.delete, idStr, body⟩ st).snd = st) := by
  constructor
  · intro idStr j b id st hne hd hp hc
    have h := c3_update_paths
    have hrows : st.rows.map (updRow b id) = st.rows :=
      map_updRow_eq_self b id st.rows
        (no_match_of_count_zero id st.rows (by simpa [countRows] using hc))
    constructor <;> simp [handleUpdateBook, hne, hd, hp, updateExec, hc, hrows, httpError]
  · intro idStr body id st hne hp hc
    have hrows : st.rows.filter (fun r => !(r.id == id)) = st.rows :=
      filter_out_eq_self id st.rows
        (no_match_of_count_zero id st.rows (by simpa [countRows] using hc))
    constructor <;> simp [handleDeleteBook, hne, hp, deleteExec, hc, hrows, httpError]

/-- C6 witness: update and delete of id 9 on a table holding only id 1
answer 404 and leave the table as it was. -/
theorem c6_witness :
    (handleUpdateBook false ⟨Method.put, "9", some JValue.jnull⟩
        ⟨[⟨1, "a", "b", "c"⟩], 2⟩).fst.status = 404 ∧
    (handleUpdateBook false ⟨Method.put, "9", some JValue.jnull⟩
        ⟨[⟨1, "a", "b", "c"⟩], 2⟩).snd = ⟨[⟨1, "a", "b", "c"⟩], 2⟩ ∧
    (handleDeleteBook false ⟨Method.delete, "9", none⟩
        ⟨[⟨1, "a", "b", "c"⟩], 2⟩).fst.status = 404 ∧
    (handleDeleteBook false ⟨Method.delete, "9", none⟩
        ⟨[⟨1, "a", "b", "c"⟩], 2⟩).snd = ⟨[⟨1, "a", "b", "c"⟩], 2⟩ :=
  ⟨(c6_not_found_frame.1 "9" JValue.jnull zeroBook 9 ⟨[⟨1, "a", "b", "c"⟩], 2⟩ (by decide)
      rfl (by decide) (by decide)).1,
   (c6_not_found_frame.1 "9" JValue.jnull zeroBook 9 ⟨[⟨1, "a", "b", "c"⟩], 2⟩ (by decide)
      rfl (by decide) (by decide)).2,
   (c6_not_found_frame.2 "9" none 9 ⟨[⟨1, "a", "b", "c"⟩], 2⟩ (by decide) (by decide)
      (by decide)).1,
   (c6_not_found_frame.2 "9" none 9 ⟨[⟨1, "a", "b", "c"⟩], 2⟩ (by decide) (by decide)
      (by decide)).2⟩

/-- C7: update is idempotent — for an existing row id and a decodable
payload, running the same PUT twice leaves the same final table as
running it once, and the second run still hits a nonzero affected-row
count and answers 200 with no body (as does the first). -/
theorem c7_update_idempotent (st : DBState) (idStr : String) (id : Int) (j : JValue)
    (b : Book) (hne : idStr ≠ "") (hp : parsePgInt idStr = some id)
    (hd : decodeBook j = some b) (hc : countRows id st ≠ 0) :
    (handleUpdateBook false ⟨Method.put, idStr, some j⟩
        ((handleUpdateBook false ⟨Method.put, idStr, some j⟩ st).snd)).snd
      = (handleUpdateBook false ⟨Method.put, idStr, some j⟩ st).snd ∧
    (handleUpdateBook false ⟨Method.put, idStr, some j⟩
        ((handleUpdateBook false ⟨Method.put, idStr, some j⟩ st).snd)).fst = ⟨200, ""⟩ ∧
    (handleUpdateBook false ⟨Method.put, idStr, some j⟩ st).fst = ⟨200, ""⟩ ∧
    countRows id ((handleUpdateBook false ⟨Method.put, idStr, some j⟩ st).snd) ≠ 0 := by
  have hcount1 : countRows id { st with rows := st.rows.map (updRow b id) }
      = countRows id st := by
    simp [countRows, count_after_update]
  have h1 : handleUpdateBook false ⟨Method.put, idStr, some j⟩ st
      = (⟨200, ""⟩, { st with rows := st.rows.map (updRow b id) }) := by
    simp [handleUpdateBook, hne, hd, hp, updateExec, hc]
  have hc2 : countRows id { st with rows := st.rows.map (updRow b id) } ≠ 0 := by
    rw [hcount1]; exact hc
  have h2 : handleUpdateBook false ⟨Method.put, idStr, some j⟩
        { st with rows := st.rows.map (updRow b id) }
      = (⟨200, ""⟩, { st with rows := st.rows.map (updRow b id) }) := by
    simp [handleUpdateBook, hne, hd, hp, updateExec, hc2, map_updRow_idem, updRow_idem]
  refine ⟨?_, ?_, ?_, ?_⟩
  · simp [h1, h2]
  · simp [h1, h2]
  · simp [h1]
  · simp [h1, hc2]

/-- C7 witness: updating row 1 twice with the same payload on a
one-row table. -/
theorem c7_witness :
    (handleUpdateBook false ⟨Method.put, "1", some (JValue.jobj [("title", JValue.jstr "T")])⟩
        ((handleUpdateBook false ⟨Method.put, "1",
            some (JValue.jobj [("title", JValue.jstr "T")])⟩ ⟨[⟨1, "x", "y", "z"⟩], 2⟩).snd)).snd
      = (handleUpdateBook false ⟨Method.put, "1",
          some (JValue.jobj [("title", JValue.jstr "T")])⟩ ⟨[⟨1, "x", "y", "z"⟩], 2⟩).snd :=
  (c7_update_idempotent ⟨[⟨1, "x", "y", "z"⟩], 2⟩ "1" 1
    (JValue.jobj [("title", JValue.jstr "T")]) ⟨0, "T", "", ""⟩ (by decide) (by decide)
    (by decide) (by decide)).1

/-- Assigning an object member whose key is not `title` (after ASCII
lower-casing) leaves the decoded title unchanged. -/
lemma setField_preserves_title (b b' : Book) (k : String) (v : JValue)
    (h : setField b k v = some b') (hk : (keyLower k == "title") = false) :
    b'.title = b.title := by
  unfold setField at h
  simp only [hk, Bool.false_eq_true, if_false] at h
  split at h
  · cases v <;> simp_all <;> rw [← h]
  · split at h
    · cases v <;> simp_all <;> rw [← h]
    · split at h
      · cases v <;> simp_all <;> rw [← h]
      · simp_all

/-- Assigning an object member whose key is not `author` leaves the
decoded author unchanged. -/
lemma setField_preserves_author (b b' : Book) (k : String) (v : JValue)
    (h : setField b k v = some b') (hk : (keyLower k == "author") = false) :
    b'.author = b.author := by
  unfold setField at h
  simp only [hk, Bool.false_eq_true, if_false] at h
  split at h
  · cases v <;> simp_all <;> rw [← h]
  · split at h
    · cases v <;> simp_all <;> rw [← h]
    · split at h
      · cases v <;> simp_all <;> rw [← h]
      · simp_all

/-- Assigning an object member whose key is not `summary` leaves the
decoded summary unchanged. -/
lemma setField_preserves_summary (b b' : Book) (k : String) (v : JValue)
    (h : setField b k v = some b') (hk : (keyLower k == "summary") = false) :
    b'.summary = b.summary := by
  unfold setField at h
  simp only [hk, Bool.false_eq_true, if_false] at h
  split at h
  · cases v <;> simp_all <;> rw [← h]
  · split at h
    · cases v <;> simp_all <;> rw [← h]
    · split at h
      · cases v <;> simp_all <;> rw [← h]
      · simp_all

/-- A JSON object none of whose keys is `title` decodes to the title
the fold started from. -/
lemma decodeFields_title (fs : List (String × JValue)) :
    ∀ (b0 b : Book), decodeFields b0 fs = some b →
      (∀ p ∈ fs, (keyLower p.1 == "title") = false) → b.title = b0.title := by
  induction fs with
  | nil =>
    intro b0 b h _
    cases h
    rfl
  | cons p t ih =>
    intro b0 b h hk
    cases hs : setField b0 p.1 p.2 with
    | none => simp [decodeFields, hs] at h
    | some b1 =>
      simp only [decodeFields, hs] at h
      have h1 : b1.title = b0.title :=
        setField_preserves_title b0 b1 p.1 p.2 hs (hk p (List.mem_cons_self p t))
      have h2 : b.title = b1.title :=
        ih b1 b h (fun q hq => hk q (List.mem_cons_of_mem p hq))
      rw [h2, h1]

/-- A JSON object none of whose keys is `author` decodes to the author
the fold started from. -/
lemma decodeFields_author (fs : List (String × JValue)) :
    ∀ (b0 b : Book), decodeFields b0 fs = some b →
      (∀ p ∈ fs, (keyLower p.1 == "author") = false) → b.author = b0.author := by
  induction fs with
  | nil =>
    intro b0 b h _
    cases h
    rfl
  | cons p t ih =>
    intro b0 b h hk
    cases hs : setField b0 p.1 p.2 with
    | none => simp [decodeFields, hs] at h
    | some b1 =>
      simp only [decodeFields, hs] at h
      have h1 : b1.author = b0.author :=
        setField_preserves_author b0 b1 p.1 p.2 hs (hk p (List.mem_cons_self p t))
      have h2 : b.author = b1.author :=
        ih b1 b h (fun q hq => hk q (List.mem_cons_of_mem p hq))
      rw [h2, h1]

/-- A JSON object none of whose keys is `summary` decodes to the
summary the fold started from. -/
lemma decodeFields_summary (fs : List (String × JValue)) :
    ∀ (b0 b : Book), decodeFields b0 fs = some b →
      (∀ p ∈ fs, (keyLower p.1 == "summary") = false) → b.summary = b0.summary := by
  induction fs with
  | nil =>
    intro b0 b h _
    cases h
    rfl
  | cons p t ih =>
    intro b0 b h hk
    cases hs : setField b0 p.1 p.2 with
    | none => simp [decodeFields, hs] at h
    | some b1 =>
      simp only [decodeFields, hs] at h
      have h1 : b1.summary = b0.summary :=
        setField_preserves_summary b0 b1 p.1 p.2 hs (hk p (List.mem_cons_self p t))
      have h2 : b.summary = b1.summary :=
        ih b1 b h (fun q hq => hk q (List.mem_cons_of_mem p hq))
      rw [h2, h1]

/-- C10 counterexample: the body `[]` is structurally valid JSON, yet
the create handler answers 400 (Go cannot unmarshal an array into the
`Book` struct) and inserts nothing — refuting the claim that a
structurally valid JSON body never yields 400. -/
theorem c10_counterexample :
    (handleCreateBook false ⟨Method.post, "", some (JValue.jarr [])⟩ ⟨[], 1⟩).fst.status
        = 400 ∧
    (handleCreateBook false ⟨Method.post, "", some (JValue.jarr [])⟩ ⟨[], 1⟩).snd
        = ⟨[], 1⟩ :=
  ⟨rfl, rfl⟩

/-- C10 (amended): for every JSON body that unmarshals into the Book
struct — top-level `null`, or an object whose recognized fields carry
type-correct values; other shapes of valid JSON are rejected with 400 —
the create handler does not answer 400: it inserts a row built from the
decoded title, author and summary only, with the id drawn from the
serial sequence regardless of any client-supplied id, and fields absent
from the object decode to empty strings. -/
theorem c10_create_decoded_insert :
    (∀ (qid : String) (st : DBState) (j : JValue) (b : Book), decodeBook j = some b →
      (handleCreateBook false ⟨Method.post, qid, some j⟩ st).fst.status = 201 ∧
      (handleCreateBook false ⟨Method.post, qid, some j⟩ st).snd.rows
        = st.rows ++ [⟨st.nextId, b.title, b.author, b.summary⟩] ∧
      (handleCreateBook false ⟨Method.post, qid, some j⟩ st).snd.nextId = st.nextId + 1) ∧
    (∀ (fs : List (String × JValue)) (b : Book), decodeBook (JValue.jobj fs) = some b →
      ((∀ p ∈ fs, (keyLower p.1 == "title") = false) → b.title = "") ∧
      ((∀ p ∈ fs, (keyLower p.1 == "author") = false) → b.author = "") ∧
      ((∀ p ∈ fs, (keyLower p.1 == "summary") = false) → b.summary = "")) := by
  constructor
  · intro qid st j b hd
    refine ⟨?_, ?_, ?_⟩ <;> simp [handleCreateBook, hd, insertExec]
  · intro fs b hd
    exact ⟨fun h => decodeFields_title fs zeroBook b hd h,
           fun h => decodeFields_author fs zeroBook b hd h,
           fun h => decodeFields_summary fs zeroBook b hd h⟩

/-- C10 witness: a body carrying only a client-supplied id decodes,
is answered 201, and the inserted row takes the serial id 1 and empty
strings — the client id 42 is ignored. -/
theorem c10_witness :
    (handleCreateBook false ⟨Method.post, "",
        some (JValue.jobj [("id", JValue.jnum 42)])⟩ ⟨[], 1⟩).fst.status = 201 ∧
    (handleCreateBook false ⟨Method.post, "",
        some (JValue.jobj [("id", JValue.jnum 42)])⟩ ⟨[], 1⟩).snd.rows
      = [⟨1, "", "", ""⟩] ∧
    (⟨42, "", "", ""⟩ : Book).title = "" :=
  ⟨(c10_create_decoded_insert.1 "" ⟨[], 1⟩ (JValue.jobj [("id", JValue.jnum 42)])
      ⟨42, "", "", ""⟩ (by decide)).1,
   (c10_create_decoded_insert.1 "" ⟨[], 1⟩ (JValue.jobj [("id", JValue.jnum 42)])
      ⟨42, "", "", ""⟩ (by decide)).2.1,
   (c10_create_decoded_insert.2 [("id", JValue.jnum 42)] ⟨42, "", "", ""⟩ (by decide)).1
      (by decide)⟩
